import Mathlib

/-!
Verification of the wasmic-wormhole binding layer (`src/lib.rs`) and of the
Wormhole protocol core it wraps, against the repository specification.

The binding layer in `src/lib.rs` is embedded directly.  The protocol core
(code generation/parsing, rendezvous, SPAKE2, mailbox channel) lives in the
wrapped `magic_wormhole` crate, whose sources are not part of this
repository; those parts are modelled from the specification and are marked
`Modelled from the spec:` in their doc comments.
-/

set_option maxHeartbeats 1000000

/- ### Code strings: hyphen-splitting and joining over character lists -/

/-- Modelled from the spec: splitting a character sequence on the hyphen
separator, as used by the code parser ("splits on `-`").  Mirrors the
behaviour of splitting a string on a one-character separator: the result is
always a non-empty list of hyphen-free segments. -/
def splitOnDash : List Char → List (List Char)
  | [] => [[]]
  | c :: cs =>
    if c = '-' then [] :: splitOnDash cs
    else
      match splitOnDash cs with
      | [] => [[c]]
      | seg :: rest => (c :: seg) :: rest

/-- Modelled from the spec: joining code segments with the hyphen separator
(the code string format `nameplate-word1-word2-...`). -/
def joinDash : List (List Char) → List Char
  | [] => []
  | [s] => s
  | s :: rest => s ++ '-' :: joinDash rest

/- ### Decimal rendering and parsing of nameplate numbers -/

/-- The ten decimal digit characters, indexed by digit value. -/
def digitChar : Nat → Char
  | 0 => '0' | 1 => '1' | 2 => '2' | 3 => '3' | 4 => '4'
  | 5 => '5' | 6 => '6' | 7 => '7' | 8 => '8' | _ => '9'

/-- Numeric value of a decimal digit character. -/
def charDigit (c : Char) : Nat := c.toNat - 48

/-- Whether a character is a decimal digit. -/
def isDigitCh (c : Char) : Bool := 48 ≤ c.toNat && c.toNat ≤ 57

/-- Little-endian decimal digits of a number, with explicit fuel so that
the definition reduces by structural recursion. -/
def toDigitsRev : Nat → Nat → List Nat
  | _, 0 => []
  | 0, _ + 1 => []
  | fuel + 1, n + 1 => (n + 1) % 10 :: toDigitsRev fuel ((n + 1) / 10)

/-- Little-endian decimal digits of a number. -/
def natDigits (n : Nat) : List Nat := toDigitsRev n n

/-- Modelled from the spec: the decimal rendering of a nameplate number
("a nameplate (small positive integer, stringified)"). -/
def natReprData (n : Nat) : List Char :=
  if n = 0 then ['0'] else ((natDigits n).map digitChar).reverse

/-- Modelled from the spec: validating and reading a decimal segment
("validates the first segment is a non-negative integer").  Returns `none`
on an empty or non-numeric segment. -/
def charsToNat? (cs : List Char) : Option Nat :=
  if cs ≠ [] ∧ cs.all isDigitCh then
    some (Nat.ofDigits 10 ((cs.map charDigit).reverse))
  else none

/- ### Code parser and formatter (component 4.1 of the spec) -/

/-- Modelled from the spec: the error for malformed wormhole codes
(`CodeFormatError`). -/
inductive CodeFormatError where
  | codeFormatError : CodeFormatError
deriving DecidableEq, Repr

/-- Modelled from the spec:
`parse(code: string) -> Result<(Nameplate, Vec<Word>), CodeFormatError>`:
splits on `-`, validates the first segment is a non-negative integer, fails
with `CodeFormatError` on malformed input (empty, non-numeric nameplate,
zero words). -/
def parseCode (code : String) : Except CodeFormatError (Nat × List String) :=
  match splitOnDash code.data with
  | [] => .error .codeFormatError
  | seg :: rest =>
    match charsToNat? seg with
    | none => .error .codeFormatError
    | some n =>
      if rest.isEmpty then .error .codeFormatError
      else .ok (n, rest.map (fun cs => ⟨cs⟩))

/-- Modelled from the spec: reformatting a nameplate and word sequence into
the code string `<nameplate-digits>-<word>-<word>[-<word>...]`. -/
def formatCode (n : Nat) (ws : List String) : String :=
  ⟨joinDash (natReprData n :: ws.map String.data)⟩

/- ### Wordlist and code generation (component 4.1 of the spec) -/

/-- Modelled from the spec: the fixed wordlist of secret words ("lowercase
words from a fixed wordlist"); a representative sample of the even/odd PGP
word list used by the wrapped library. -/
def wordlist : List String :=
  ["aardvark", "absurd", "accrue", "acme", "adrift",
   "beaming", "bison", "checkup", "chisel", "clockwork",
   "crossover", "crucial", "deadbolt", "dropper", "eating"]

/-- A word made only of lowercase ASCII letters. -/
def isLowerWord (w : String) : Bool :=
  w.data.all (fun c => 97 ≤ c.toNat && c.toNat ≤ 122)

/-- Modelled from the spec: drawing `count` secret words from the fixed
wordlist using a cryptographically secure random source; the random draws
are modelled by the list `idx` of sampled indices supplied by the
environment. -/
def pickWords (idx : List Nat) (count : Nat) : List String :=
  (List.range count).map (fun i => wordlist.getD ((idx.getD i 0) % wordlist.length) "")

/- ### The wrapped library's types (modelled from the spec) -/

/-- Modelled from the spec: `magic_wormhole::AppID`, a URI-like protocol
identifier newtype (`AppID(Cow<str>)`). -/
structure AppID where
  val : String
deriving DecidableEq, Repr

/-- Modelled from the spec: `magic_wormhole::Code`, the wormhole code
newtype (`Code(String)`); the field `val` embeds the Rust tuple field `.0`. -/
structure Code where
  val : String
deriving DecidableEq, Repr

/-- Modelled from the spec: `magic_wormhole::transfer::AppVersion`, the
fixed empty version-negotiation payload (`AppVersion {}`). -/
structure AppVersion where
deriving DecidableEq, Repr

/-- Modelled from the spec: the error taxonomy of the wrapped library
(`magic_wormhole::WormholeError`), following section 7 of the
specification. -/
inductive WhError where
  | connectError : WhError
  | nameplateUnavailable : WhError
  | unexpectedNameplateState : WhError
  | codeFormatErr : WhError
  | pakeMalformedMessage : WhError
  | authenticationError : WhError
  | rendezvousError (msg : String) : WhError
deriving DecidableEq, Repr

/-- Modelled from the spec: the `Display` rendering of the wrapped
library's error (used by the wrapper's `Display` and `JsValue`
conversions). -/
def whErrorMessage : WhError → String
  | .connectError => "transport connection failed"
  | .nameplateUnavailable => "nameplate unavailable"
  | .unexpectedNameplateState => "unexpected nameplate state"
  | .codeFormatErr => "bad code format"
  | .pakeMalformedMessage => "malformed PAKE message"
  | .authenticationError => "authentication failed"
  | .rendezvousError msg => msg

/-- Modelled from the spec: `magic_wormhole::AppConfig` with `id`,
`rendezvous_url` and `app_version` fields. -/
structure WhAppConfig where
  id : AppID
  rendezvous_url : String
  app_version : AppVersion
deriving DecidableEq, Repr

/-- Modelled from the spec: the wrapped library's `WormholeWelcome`, with
an optional server banner and the wormhole code of this handshake. -/
structure WhWelcome where
  welcome : Option String
  code : Code
deriving DecidableEq, Repr

/- ### PAKE engine (component 4.3 of the spec, symbolic model) -/

/-- Modelled from the spec: the public PAKE message of SPAKE2, a
fixed-length group element; symbolically, the ephemeral share blinded by
the code (`g^x * N^H(code)`). -/
inductive PakeMsg where
  | blind (code : String) (eph : Nat) : PakeMsg
deriving DecidableEq, Repr

/-- Modelled from the spec: the local secret PAKE state produced by
`start(code)`. -/
structure PakeState where
  code : String
  eph : Nat
deriving DecidableEq, Repr

/-- Modelled from the spec: `start(code) -> (PublicMessage, PakeState)`;
the ephemeral scalar is supplied by the caller's random source. -/
def pakeStart (code : String) (eph : Nat) : PakeMsg × PakeState :=
  (PakeMsg.blind code eph, ⟨code, eph⟩)

/-- Modelled from the spec: `PakeError` (only malformed public messages
are rejected at the PAKE step). -/
inductive PakeError where
  | malformedMessage : PakeError
deriving DecidableEq, Repr

/-- Modelled from the spec: the derived symmetric session key.  In the
symbolic SPAKE2 model, matching codes let both sides unblind the peer
share and reach the common element `g^(x*y)` (constructor `shared`);
mismatched codes leave a residue of both codes and shares (constructor
`residual`), so the two sides' keys are distinct terms — the
"overwhelming probability" of the spec idealised as certainty. -/
inductive SessionKey where
  | shared (s : Nat) : SessionKey
  | residual (peerCode myCode : String) (myEph peerEph : Nat) : SessionKey
deriving DecidableEq, Repr

/-- Modelled from the spec: `finish(PakeState, PeerPublicMessage) ->
Result<SessionKey, PakeError>`; never an explicit error on a well-formed
message, by design. -/
def pakeFinish (st : PakeState) (peer : PakeMsg) : Except PakeError SessionKey :=
  match peer with
  | .blind c y =>
    .ok (if st.code = c then .shared (st.eph * y) else .residual c st.code st.eph y)

/- ### Mailbox channel (component 4.4 of the spec, symbolic model) -/

/-- Modelled from the spec: an authenticated-encrypted mailbox message as
an opaque term sealed under a session key. -/
structure CipherText where
  sealKey : SessionKey
  phase : String
  body : List Nat
deriving DecidableEq, Repr

/-- Modelled from the spec: `send_phase` encryption with the per-session
key. -/
def encryptMsg (k : SessionKey) (phase : String) (body : List Nat) : CipherText :=
  ⟨k, phase, body⟩

/-- Modelled from the spec: the channel-level error for failed
authentication tags. -/
inductive ChannelError where
  | authenticationError : ChannelError
deriving DecidableEq, Repr

/-- Modelled from the spec: receiving decryption; the authentication tag
verifies exactly when the receiver holds the same session key. -/
def decryptMsg (k : SessionKey) (ct : CipherText) : Except ChannelError (String × List Nat) :=
  if ct.sealKey = k then .ok (ct.phase, ct.body) else .error .authenticationError

/- ### Established channel and rendezvous environment -/

/-- Modelled from the spec: the wrapped library's established `Wormhole`
channel, owning the negotiated session key. -/
structure Wh where
  sessionKey : SessionKey
deriving DecidableEq, Repr

/-- The rendezvous environment: everything the relay server, the random
source and the eventual peer contribute to one handshake.  The shallow
embedding passes it explicitly to the connect calls. -/
structure RendezvousEnv where
  /-- whether the transport-level connection to the relay succeeds -/
  connectOk : Bool
  /-- the optional server banner of the Welcome message -/
  serverWelcome : Option String
  /-- the fresh nameplate number allocated by the server, if allocation succeeds -/
  freshNameplate : Option Nat
  /-- the random draws of wordlist indices for code generation -/
  wordIdx : List Nat
  /-- the nameplates currently claimed on the relay -/
  claimed : List Nat
  /-- the local ephemeral PAKE scalar -/
  myEph : Nat
  /-- the code the peer typed -/
  peerCode : String
  /-- the peer's ephemeral PAKE scalar -/
  peerEph : Nat
  /-- the eventual outcome of awaiting the suspended handshake returned by
  `connect_without_code` (peer arrival and the remaining transitions) -/
  handshakeOutcome : Except WhError Wh
deriving Repr

/-- Modelled from the spec: the code produced for a handshake started by
`connect_without_code`: fresh nameplate from the server, `codeLength`
words from the wordlist. -/
def generatedCode (env : RendezvousEnv) (codeLength : Nat) : Option String :=
  env.freshNameplate.map (fun np => formatCode np (pickWords env.wordIdx codeLength))

/-- Modelled from the spec: `Wh::connect_without_code`: transitions
Idle→CodeEstablished by generating a code, returns the server Welcome
immediately together with a suspended handshake (embedded as a thunk) for
the remaining transition to Established. -/
def whConnectWithoutCode (env : RendezvousEnv) (_cfg : WhAppConfig) (codeLength : Nat) :
    Except WhError (WhWelcome × (Unit → Except WhError Wh)) :=
  if env.connectOk = false then .error .connectError
  else
    match env.freshNameplate with
    | none => .error (.rendezvousError "nameplate allocation failed")
    | some np =>
      .ok ({ welcome := env.serverWelcome,
             code := ⟨formatCode np (pickWords env.wordIdx codeLength)⟩ },
           fun _ => env.handshakeOutcome)

/-- The relay endpoints contacted during a handshake, recorded as a trace
by the with-code flow. -/
inductive RelayOp where
  | connectOp (url : String) : RelayOp
  | claimOp (nameplate : Nat) : RelayOp
  | claimWaitOp (nameplate : Nat) : RelayOp
  | openMailboxOp : RelayOp
  | pakeExchangeOp : RelayOp
  | versionExchangeOp : RelayOp
deriving DecidableEq, Repr

/-- Modelled from the spec: the transitions CodeEstablished → PakeExchanged
→ VersionExchanged → Established of the with-code flow: open the mailbox,
exchange PAKE messages, derive the key, and verify the first encrypted
(version) message. -/
def finishHandshake (env : RendezvousEnv) (code : Code) (np : Nat)
    (pre : List RelayOp) (waited : Bool) :
    Except WhError (WhWelcome × Wh) × List RelayOp :=
  let ops := pre ++ (if waited then [RelayOp.claimWaitOp np] else [])
      ++ [RelayOp.openMailboxOp, RelayOp.pakeExchangeOp]
  match pakeFinish ⟨code.val, env.myEph⟩ (PakeMsg.blind env.peerCode env.peerEph),
        pakeFinish ⟨env.peerCode, env.peerEph⟩ (PakeMsg.blind code.val env.myEph) with
  | .ok myKey, .ok peerKey =>
    let ops2 := ops ++ [RelayOp.versionExchangeOp]
    match decryptMsg myKey (encryptMsg peerKey "version" []) with
    | .error _ => (.error .authenticationError, ops2)
    | .ok _ => (.ok ({ welcome := env.serverWelcome, code := code }, ⟨myKey⟩), ops2)
  | _, _ => (.error .pakeMalformedMessage, ops)

/-- Modelled from the spec: `Wh::connect_with_code`: runs all transitions
to Established before returning.  When `expectClaimed` is true the waiting
round trip for the nameplate claim is skipped and the call fails with
`UnexpectedNameplateState` if the nameplate has no existing claim.  Also
returns the trace of relay endpoints contacted. -/
def whConnectWithCode (env : RendezvousEnv) (cfg : WhAppConfig) (code : Code)
    (expectClaimed : Bool) : Except WhError (WhWelcome × Wh) × List RelayOp :=
  match parseCode code.val with
  | .error _ => (.error .codeFormatErr, [])
  | .ok (np, _) =>
    if env.connectOk = false then (.error .connectError, [.connectOp cfg.rendezvous_url])
    else
      let pre := [RelayOp.connectOp cfg.rendezvous_url, RelayOp.claimOp np]
      if expectClaimed then
        if env.claimed.contains np = false then
          (.error .unexpectedNameplateState, pre)
        else
          finishHandshake env code np pre false
      else
        finishHandshake env code np pre true

/- ### The binding layer, embedded from `src/lib.rs` -/

/-- A minimal model of `serde_json::Value`, as far as the wrapper uses it:
the placeholder `_app_version` field is initialised with `"".into()`, the
JSON string value `""`. -/
inductive JsonValue where
  | str (s : String) : JsonValue
  | null : JsonValue
deriving DecidableEq, Repr

/-- The wrapper's `AppConfig` (src/lib.rs lines 26-31): `id`,
`rendezvous_url`, and the placeholder `_app_version`. -/
structure AppConfig where
  id : String
  rendezvous_url : String
  _app_version : JsonValue
deriving DecidableEq, Repr

/-- `AppConfig::new` (src/lib.rs lines 36-43): stores `id` and
`rendezvous_url` and sets the placeholder to `"".into()`. -/
def AppConfig.new (id rendezvous_url : String) : AppConfig :=
  ⟨id, rendezvous_url, .str ""⟩

/-- The `id` getter (src/lib.rs lines 46-48); cloning is the identity on
values, so the getter is the projection. -/
def AppConfig.idGet (c : AppConfig) : String := c.id

/-- The `rendezvous_url` getter (src/lib.rs lines 56-58). -/
def AppConfig.rendezvousUrlGet (c : AppConfig) : String := c.rendezvous_url

/-- The `set_id` setter (src/lib.rs lines 51-53). -/
def AppConfig.set_id (c : AppConfig) (id : String) : AppConfig :=
  { c with id := id }

/-- The `set_rendezvous_url` setter (src/lib.rs lines 61-63). -/
def AppConfig.set_rendezvous_url (c : AppConfig) (rendezvous_url : String) : AppConfig :=
  { c with rendezvous_url := rendezvous_url }

/-- The wrapper's `WormholeError` (src/lib.rs line 67): a newtype around
the library error; `inner` embeds the Rust tuple field `.0`. -/
structure WormholeError where
  inner : WhError
deriving DecidableEq, Repr

/-- The `Display` impl (src/lib.rs lines 69-73): renders the inner
library error. -/
def WormholeError.display (e : WormholeError) : String := whErrorMessage e.inner

/-- The `From<WormholeError> for JsValue` impl (src/lib.rs lines 75-79):
the host error value is the display string. -/
def jsValueFromWormholeError (e : WormholeError) : String := e.display

/-- The wrapper's `WormholeWelcome` (src/lib.rs lines 83-88). -/
structure WormholeWelcome where
  welcome : Option String
  code : String
deriving DecidableEq, Repr

/-- The `welcome` getter (src/lib.rs lines 92-95):
`self.welcome.clone().unwrap_or("".into())`. -/
def WormholeWelcome.getWelcome (w : WormholeWelcome) : String :=
  w.welcome.getD ""

/-- The `code` getter (src/lib.rs lines 97-100). -/
def WormholeWelcome.getCode (w : WormholeWelcome) : String := w.code

/-- The wrapper's `Handshake` (src/lib.rs line 109): the boxed awaitable
handshake future, embedded as a thunk. -/
structure Handshake where
  fut : Unit → Except WhError Wh

/-- The wrapper's `WelcomeAndHandshake` tuple struct (src/lib.rs line
114); `f0`/`f1` embed the Rust tuple fields `.0`/`.1`. -/
structure WelcomeAndHandshake where
  f0 : WormholeWelcome
  f1 : Handshake

/-- The wrapper's `WelcomeAndWormhole` tuple struct (src/lib.rs line
119). -/
structure WelcomeAndWormhole where
  f0 : WormholeWelcome
  f1 : Wh
deriving DecidableEq, Repr

/-- The wrapper's `Wormhole` unit struct (src/lib.rs line 105). -/
structure Wormhole where
deriving DecidableEq, Repr

/-- `Wormhole::get_wh_config` (src/lib.rs lines 124-130): builds the core
config from the wrapper config, with a fixed empty `AppVersion {}` payload
(the placeholder `_app_version` field is not consulted). -/
def Wormhole.get_wh_config (config : AppConfig) : WhAppConfig :=
  { id := ⟨config.id⟩,
    rendezvous_url := config.rendezvous_url,
    app_version := ⟨⟩ }

/-- `Wormhole::connect_without_code` (src/lib.rs lines 141-152): builds
the core config, calls the library, and on success repackages the welcome
(`welcome.welcome`, `welcome.code.0`) and boxes the handshake; on failure
the `?` operator converts the library error into `WormholeError`. -/
def Wormhole.connect_without_code (env : RendezvousEnv) (config : AppConfig)
    (code_length : Nat) : Except WormholeError WelcomeAndHandshake :=
  match whConnectWithoutCode env (Wormhole.get_wh_config config) code_length with
  | .error e => .error ⟨e⟩
  | .ok (welcome, handshake) =>
    .ok ⟨{ welcome := welcome.welcome, code := welcome.code.val }, ⟨handshake⟩⟩

/-- `Wormhole::connect_with_code` (src/lib.rs lines 164-176): defaults the
optional flag with `unwrap_or(false)`, builds the core config, calls the
library with `Code(code.to_string())`, and repackages the result; on
failure the `?` operator converts the library error into
`WormholeError`. -/
def Wormhole.connect_with_code (env : RendezvousEnv) (config : AppConfig)
    (code : String) (expect_claimed_nameplate : Option Bool) :
    Except WormholeError WelcomeAndWormhole :=
  let ecn := expect_claimed_nameplate.getD false
  match (whConnectWithCode env (Wormhole.get_wh_config config) ⟨code⟩ ecn).1 with
  | .error e => .error ⟨e⟩
  | .ok (welcome, wh) =>
    .ok ⟨{ welcome := welcome.welcome, code := welcome.code.val }, wh⟩

/- ### State-passing views and concrete fixtures -/

/-- State-passing view of `connect_without_code` through the borrowed
`&AppConfig` (src/lib.rs line 141): the body only reads the config (via
`get_wh_config`, shadowing the name with the derived core config), so the
caller's config after the call is the unchanged input config. -/
def Wormhole.connect_without_code_st (env : RendezvousEnv) (config : AppConfig)
    (code_length : Nat) : Except WormholeError WelcomeAndHandshake × AppConfig :=
  (Wormhole.connect_without_code env config code_length, config)

/-- State-passing view of `connect_with_code` through the borrowed
`&AppConfig` (src/lib.rs line 164); the body performs no write to the
caller's config. -/
def Wormhole.connect_with_code_st (env : RendezvousEnv) (config : AppConfig)
    (code : String) (expect_claimed_nameplate : Option Bool) :
    Except WormholeError WelcomeAndWormhole × AppConfig :=
  (Wormhole.connect_with_code env config code expect_claimed_nameplate, config)

/-- A concrete rendezvous environment: the relay is reachable, allocates
nameplate 7, the random source draws the words "crossover" and
"clockwork", no nameplate is claimed yet, and the eventually awaited
handshake succeeds. -/
def envW : RendezvousEnv :=
  { connectOk := true
    serverWelcome := some "mean it"
    freshNameplate := some 7
    wordIdx := [10, 9]
    claimed := []
    myEph := 3
    peerCode := "7-crossover-clockwork"
    peerEph := 5
    handshakeOutcome := .ok ⟨.shared 15⟩ }

/-- The same environment with an unreachable relay. -/
def envFail : RendezvousEnv := { envW with connectOk := false }

/-- A concrete wrapper configuration. -/
def cfgW : AppConfig :=
  AppConfig.new "lothar.com/wormhole/text-or-file-xfer" "ws://relay.example/v1"

/-- The concrete result of `connect_without_code` under `envW`. -/
def rW : WelcomeAndHandshake :=
  ⟨{ welcome := some "mean it", code := "7-crossover-clockwork" },
   ⟨fun _ => .ok ⟨.shared 15⟩⟩⟩

/- ### Supporting lemmas -/

theorem splitOnDash_ne_nil (cs : List Char) : splitOnDash cs ≠ [] := by
  induction cs with
  | nil => simp [splitOnDash]
  | cons c cs ih =>
    simp only [splitOnDash]
    split
    · simp
    · cases h : splitOnDash cs with
      | nil => simp
      | cons seg rest => simp

theorem splitOnDash_no_dash (s : List Char) (h : '-' ∉ s) :
    splitOnDash s = [s] := by
  induction s with
  | nil => rfl
  | cons c cs ih =>
    simp only [List.mem_cons, not_or] at h
    simp only [splitOnDash]
    rw [if_neg (fun hc => h.1 hc.symm), ih h.2]

theorem splitOnDash_append (s t : List Char) (h : '-' ∉ s) :
    splitOnDash (s ++ '-' :: t) = s :: splitOnDash t := by
  induction s with
  | nil => simp [splitOnDash]
  | cons c cs ih =>
    simp only [List.mem_cons, not_or] at h
    simp only [List.cons_append, splitOnDash, List.append_eq]
    rw [if_neg (fun hc => h.1 hc.symm), ih h.2]

theorem splitOnDash_joinDash (segs : List (List Char)) (hne : segs ≠ [])
    (hno : ∀ s ∈ segs, '-' ∉ s) :
    splitOnDash (joinDash segs) = segs := by
  induction segs with
  | nil => exact absurd rfl hne
  | cons s rest ih =>
    cases rest with
    | nil =>
      simp only [joinDash]
      exact splitOnDash_no_dash s (hno s (by simp))
    | cons t rest2 =>
      simp only [joinDash]
      rw [splitOnDash_append s _ (hno s (by simp))]
      rw [ih (by simp) (fun u hu => hno u (List.mem_cons_of_mem _ hu))]

theorem toDigitsRev_eq_digits (fuel : Nat) :
    ∀ n, n ≤ fuel → toDigitsRev fuel n = Nat.digits 10 n := by
  induction fuel with
  | zero =>
    intro n hn
    interval_cases n
    simp [toDigitsRev]
  | succ fuel ih =>
    intro n hn
    match n with
    | 0 => simp [toDigitsRev]
    | m + 1 =>
      rw [show toDigitsRev (fuel + 1) (m + 1)
            = (m + 1) % 10 :: toDigitsRev fuel ((m + 1) / 10) from rfl]
      rw [ih _ (by omega : (m + 1) / 10 ≤ fuel)]
      rw [Nat.digits_def' (by norm_num : 1 < 10) (Nat.succ_pos m)]

theorem natDigits_eq (n : Nat) : natDigits n = Nat.digits 10 n :=
  toDigitsRev_eq_digits n n le_rfl

theorem charDigit_digitChar {d : Nat} (h : d < 10) :
    charDigit (digitChar d) = d := by
  interval_cases d <;> decide

theorem isDigitCh_digitChar {d : Nat} (h : d < 10) :
    isDigitCh (digitChar d) = true := by
  interval_cases d <;> decide

theorem digitChar_ne_dash {d : Nat} (h : d < 10) : digitChar d ≠ '-' := by
  interval_cases d <;> decide

theorem natReprData_no_dash (n : Nat) : '-' ∉ natReprData n := by
  unfold natReprData
  rw [natDigits_eq]
  split
  · decide
  · intro hmem
    rw [List.mem_reverse, List.mem_map] at hmem
    obtain ⟨d, hd, hdc⟩ := hmem
    exact digitChar_ne_dash (Nat.digits_lt_base (by norm_num) hd) hdc

theorem charsToNat?_natReprData (n : Nat) :
    charsToNat? (natReprData n) = some n := by
  unfold natReprData
  rw [natDigits_eq]
  split
  · subst n; decide
  · unfold charsToNat?
    rw [if_pos]
    · congr 1
      rw [List.map_reverse, List.reverse_reverse, List.map_map]
      have h2 : ((Nat.digits 10 n).map (charDigit ∘ digitChar)) = (Nat.digits 10 n).map id :=
        List.map_congr_left
          (fun d hd => charDigit_digitChar (Nat.digits_lt_base (by norm_num) hd))
      rw [h2, List.map_id, Nat.ofDigits_digits]
    · constructor
      · simp only [ne_eq, List.reverse_eq_nil_iff, List.map_eq_nil_iff]
        exact Nat.digits_ne_nil_iff_ne_zero.mpr (by assumption)
      · rw [List.all_eq_true]
        intro c hc
        rw [List.mem_reverse, List.mem_map] at hc
        obtain ⟨d, hd, hdc⟩ := hc
        subst hdc
        exact isDigitCh_digitChar (Nat.digits_lt_base (by norm_num) hd)

theorem parseCode_formatCode (n : Nat) (ws : List String) (hne : ws ≠ [])
    (hno : ∀ w ∈ ws, '-' ∉ w.data) :
    parseCode (formatCode n ws) = .ok (n, ws) := by
  unfold parseCode formatCode
  rw [show (String.mk (joinDash (natReprData n :: ws.map String.data))).data
        = joinDash (natReprData n :: ws.map String.data) from rfl]
  rw [splitOnDash_joinDash _ (by simp)]
  · simp only [charsToNat?_natReprData]
    rw [if_neg (by simpa using hne)]
    congr 1
    rw [List.map_map]
    have h2 : ws.map ((fun cs => String.mk cs) ∘ String.data) = ws.map id :=
      List.map_congr_left (fun w _ => rfl)
    rw [h2, List.map_id]
  · intro s hs
    rcases List.mem_cons.mp hs with h | h
    · subst h; exact natReprData_no_dash n
    · rw [List.mem_map] at h
      obtain ⟨w, hw, hwd⟩ := h
      subst hwd
      exact hno w hw

theorem wordlist_lower : ∀ w ∈ wordlist, isLowerWord w = true := by decide

theorem wordlist_no_dash : ∀ w ∈ wordlist, '-' ∉ w.data := by decide

theorem pickWords_length (idx : List Nat) (count : Nat) :
    (pickWords idx count).length = count := by
  simp [pickWords]

theorem pickWords_mem (idx : List Nat) (count : Nat) :
    ∀ w ∈ pickWords idx count, w ∈ wordlist := by
  intro w hw
  simp only [pickWords, List.mem_map, List.mem_range] at hw
  obtain ⟨i, _, hget⟩ := hw
  subst hget
  have hlt : (idx.getD i 0) % wordlist.length < wordlist.length :=
    Nat.mod_lt _ (by decide)
  rw [List.getD_eq_getElem?_getD, List.getElem?_eq_getElem hlt]
  exact List.getElem_mem hlt

/- ### Evaluation lemmas for the connect flows -/

theorem connect_without_code_eval (env : RendezvousEnv) (config : AppConfig)
    (code_length : Nat) (np : Nat)
    (hc : env.connectOk = true) (hn : env.freshNameplate = some np) :
    Wormhole.connect_without_code env config code_length
      = .ok ⟨{ welcome := env.serverWelcome,
               code := formatCode np (pickWords env.wordIdx code_length) },
             ⟨fun _ => env.handshakeOutcome⟩⟩ := by
  unfold Wormhole.connect_without_code whConnectWithoutCode
  rw [hc, hn]
  rfl

theorem connect_without_code_ok (env : RendezvousEnv) (config : AppConfig)
    (code_length : Nat) (r : WelcomeAndHandshake)
    (h : Wormhole.connect_without_code env config code_length = .ok r) :
    env.connectOk = true ∧ ∃ np, env.freshNameplate = some np ∧
      r.f0 = { welcome := env.serverWelcome,
               code := formatCode np (pickWords env.wordIdx code_length) } ∧
      r.f1.fut = fun _ => env.handshakeOutcome := by
  unfold Wormhole.connect_without_code whConnectWithoutCode at h
  cases hc : env.connectOk with
  | false => rw [hc] at h; simp at h
  | true =>
    rw [hc] at h
    refine ⟨rfl, ?_⟩
    cases hn : env.freshNameplate with
    | none => rw [hn] at h; simp at h
    | some np =>
      rw [hn] at h
      simp only [Bool.true_eq_false, if_false] at h
      refine ⟨np, rfl, ?_⟩
      cases h
      exact ⟨rfl, rfl⟩

/- ### Claim theorems -/

/-- Claim C1: a successful `Wormhole::connect_without_code(config,
code_length)` returns a pair whose first component is a `WormholeWelcome`
whose `code` field equals the code generated for this handshake, and whose
second component is the suspended handshake (awaiting it later yields the
environment's handshake outcome); the welcome is available before the
handshake future completes — it is the same whatever that outcome is. -/
theorem c1_connect_without_code_split (env : RendezvousEnv) (config : AppConfig)
    (code_length : Nat) (r : WelcomeAndHandshake)
    (h : Wormhole.connect_without_code env config code_length = .ok r) :
    generatedCode env code_length = some r.f0.code ∧
    r.f1.fut () = env.handshakeOutcome ∧
    ∀ o : Except WhError Wh, ∃ s : WelcomeAndHandshake,
      Wormhole.connect_without_code { env with handshakeOutcome := o } config code_length
        = .ok s ∧ s.f0 = r.f0 := by
  obtain ⟨hc, np, hn, hf0, hf1⟩ := connect_without_code_ok env config code_length r h
  refine ⟨?_, ?_, ?_⟩
  · rw [generatedCode, hn, Option.map, hf0]
  · rw [hf1]
  · intro o
    refine ⟨⟨r.f0, ⟨fun _ => o⟩⟩, ?_, rfl⟩
    rw [connect_without_code_eval { env with handshakeOutcome := o } config code_length np hc hn]
    rw [hf0]

/-- Witness for C1, at a concrete environment where the handshake
succeeds. -/
theorem c1_witness : generatedCode envW 2 = some rW.f0.code ∧
    rW.f1.fut () = envW.handshakeOutcome ∧
    ∀ o : Except WhError Wh, ∃ s : WelcomeAndHandshake,
      Wormhole.connect_without_code { envW with handshakeOutcome := o } cfgW 2
        = .ok s ∧ s.f0 = rW.f0 :=
  c1_connect_without_code_split envW cfgW 2 rW (by rfl)

/-- Claim C2: any failure of the wrapped library during
`connect_without_code` or `connect_with_code` is surfaced to the caller as
`Err(WormholeError)` carrying the underlying library error, whose host
(`JsValue`) conversion is its display string; on error no
`WelcomeAndHandshake` or `WelcomeAndWormhole` value is returned. -/
theorem c2_typed_error_propagation (env : RendezvousEnv) (config : AppConfig)
    (code_length : Nat) (code : String) (flag : Option Bool) :
    (∀ e, whConnectWithoutCode env (Wormhole.get_wh_config config) code_length = .error e →
      Wormhole.connect_without_code env config code_length = .error ⟨e⟩ ∧
      jsValueFromWormholeError ⟨e⟩ = whErrorMessage e ∧
      ∀ r, Wormhole.connect_without_code env config code_length ≠ .ok r) ∧
    (∀ e, (whConnectWithCode env (Wormhole.get_wh_config config) ⟨code⟩
              (flag.getD false)).1 = .error e →
      Wormhole.connect_with_code env config code flag = .error ⟨e⟩ ∧
      jsValueFromWormholeError ⟨e⟩ = whErrorMessage e ∧
      ∀ r, Wormhole.connect_with_code env config code flag ≠ .ok r) := by
  constructor
  · intro e he
    have h1 : Wormhole.connect_without_code env config code_length = .error ⟨e⟩ := by
      unfold Wormhole.connect_without_code
      rw [he]
    exact ⟨h1, rfl, fun r hr => by rw [h1] at hr; cases hr⟩
  · intro e he
    have h1 : Wormhole.connect_with_code env config code flag = .error ⟨e⟩ := by
      simp only [Wormhole.connect_with_code, he]
    exact ⟨h1, rfl, fun r hr => by rw [h1] at hr; cases hr⟩

/-- Witness for C2, at a concrete environment whose relay connection
fails. -/
theorem c2_witness :
    (Wormhole.connect_without_code envFail cfgW 2 = .error ⟨.connectError⟩ ∧
      jsValueFromWormholeError ⟨.connectError⟩ = whErrorMessage .connectError ∧
      ∀ r, Wormhole.connect_without_code envFail cfgW 2 ≠ .ok r) ∧
    (Wormhole.connect_with_code envFail cfgW "7-crossover-clockwork" none = .error ⟨.connectError⟩ ∧
      jsValueFromWormholeError ⟨.connectError⟩ = whErrorMessage .connectError ∧
      ∀ r, Wormhole.connect_with_code envFail cfgW "7-crossover-clockwork" none ≠ .ok r) :=
  ⟨(c2_typed_error_propagation envFail cfgW 2 "7-crossover-clockwork" none).1 .connectError rfl,
   (c2_typed_error_propagation envFail cfgW 2 "7-crossover-clockwork" none).2 .connectError rfl⟩

/-- Claim C6: when `Wormhole::connect_without_code(config, code_length)`
succeeds, the `code` field of the returned `WormholeWelcome` is the
hyphen-joined string of the numeric nameplate followed by exactly
`code_length` lowercase words from the fixed wordlist (and for a positive
word count it parses back accordingly). -/
theorem c6_generated_code_format (env : RendezvousEnv) (config : AppConfig)
    (code_length : Nat) (r : WelcomeAndHandshake)
    (h : Wormhole.connect_without_code env config code_length = .ok r) :
    ∃ np ws, env.freshNameplate = some np ∧
      r.f0.code = formatCode np ws ∧
      ws.length = code_length ∧
      (∀ w ∈ ws, w ∈ wordlist ∧ isLowerWord w = true) ∧
      (0 < code_length → parseCode r.f0.code = .ok (np, ws)) := by
  obtain ⟨hc, np, hn, hf0, _⟩ := connect_without_code_ok env config code_length r h
  refine ⟨np, pickWords env.wordIdx code_length, hn, by rw [hf0], ?_, ?_, ?_⟩
  · exact pickWords_length env.wordIdx code_length
  · intro w hw
    have hmem := pickWords_mem env.wordIdx code_length w hw
    exact ⟨hmem, wordlist_lower w hmem⟩
  · intro hpos
    rw [hf0]
    apply parseCode_formatCode
    · intro hnil
      rw [← pickWords_length env.wordIdx code_length, hnil] at hpos
      simp at hpos
    · intro w hw
      exact wordlist_no_dash w (pickWords_mem env.wordIdx code_length w hw)

/-- Witness for C6, at a concrete environment generating
"7-crossover-clockwork". -/
theorem c6_witness :
    ∃ np ws, envW.freshNameplate = some np ∧
      rW.f0.code = formatCode np ws ∧
      ws.length = 2 ∧
      (∀ w ∈ ws, w ∈ wordlist ∧ isLowerWord w = true) ∧
      (0 < 2 → parseCode rW.f0.code = .ok (np, ws)) :=
  c6_generated_code_format envW cfgW 2 rW (by rfl)

/-- Claim C4: `Wormhole::connect_with_code` with
`expect_claimed_nameplate = true` against a nameplate with no existing
claim on the relay fails with `UnexpectedNameplateState`, and the relay
trace stops at the connect and claim endpoints — no mailbox, PAKE or
version endpoint is contacted, and the waiting round trip is skipped. -/
theorem c4_expect_claimed_unclaimed (env : RendezvousEnv) (config : AppConfig)
    (code : String) (np : Nat) (ws : List String)
    (hparse : parseCode code = .ok (np, ws))
    (hconn : env.connectOk = true)
    (hunclaimed : env.claimed.contains np = false) :
    Wormhole.connect_with_code env config code (some true)
      = .error ⟨.unexpectedNameplateState⟩ ∧
    (whConnectWithCode env (Wormhole.get_wh_config config) ⟨code⟩ true).2
      = [.connectOp config.rendezvous_url, .claimOp np] := by
  have hwh : whConnectWithCode env (Wormhole.get_wh_config config) ⟨code⟩ true
      = (.error .unexpectedNameplateState,
         [.connectOp config.rendezvous_url, .claimOp np]) := by
    unfold whConnectWithCode
    rw [show (Code.mk code).val = code from rfl, hparse]
    rw [hconn]
    simp only [Bool.true_eq_false, if_false, if_true, hunclaimed]
    rfl
  constructor
  · simp only [Wormhole.connect_with_code, Option.getD, hwh]
  · rw [hwh]

/-- Witness for C4, at a concrete environment with no claimed
nameplates. -/
theorem c4_witness :
    Wormhole.connect_with_code envW cfgW "7-crossover-clockwork" (some true)
      = .error ⟨.unexpectedNameplateState⟩ ∧
    (whConnectWithCode envW (Wormhole.get_wh_config cfgW) ⟨"7-crossover-clockwork"⟩ true).2
      = [.connectOp cfgW.rendezvous_url, .claimOp 7] :=
  c4_expect_claimed_unclaimed envW cfgW "7-crossover-clockwork" 7
    ["crossover", "clockwork"] (by rfl) (by rfl) (by rfl)

/-- Claim C9: `Wormhole::connect_with_code` with the optional
`expect_claimed_nameplate` argument omitted behaves identically to passing
`Some(false)` — the flag defaults to false via `unwrap_or(false)`. -/
theorem c9_flag_defaults_to_false (env : RendezvousEnv) (config : AppConfig)
    (code : String) :
    Wormhole.connect_with_code env config code none
      = Wormhole.connect_with_code env config code (some false) := rfl

/-- Claim C10: the `welcome()` getter of `WormholeWelcome` is total: it
returns the empty string when the server provided no banner, and the
banner text unchanged otherwise. -/
theorem c10_welcome_getter_total (banner : String) (code : String) :
    WormholeWelcome.getWelcome { welcome := none, code := code } = "" ∧
    WormholeWelcome.getWelcome { welcome := some banner, code := code } = banner :=
  ⟨rfl, rfl⟩

/-- Claim C7: both connect calls leave the caller's `AppConfig`
unchanged: the `id` and `rendezvous_url` getters (and the placeholder
`_app_version` value) observe identical values before and after the
call. -/
theorem c7_config_unchanged (env : RendezvousEnv) (config : AppConfig)
    (code_length : Nat) (code : String) (flag : Option Bool) :
    ((Wormhole.connect_without_code_st env config code_length).2.idGet = config.idGet ∧
     (Wormhole.connect_without_code_st env config code_length).2.rendezvousUrlGet
        = config.rendezvousUrlGet ∧
     (Wormhole.connect_without_code_st env config code_length).2._app_version
        = config._app_version) ∧
    ((Wormhole.connect_with_code_st env config code flag).2.idGet = config.idGet ∧
     (Wormhole.connect_with_code_st env config code flag).2.rendezvousUrlGet
        = config.rendezvousUrlGet ∧
     (Wormhole.connect_with_code_st env config code flag).2._app_version
        = config._app_version) :=
  ⟨⟨rfl, rfl, rfl⟩, ⟨rfl, rfl, rfl⟩⟩

/-- Claim C8: `AppConfig::new(id, rendezvous_url)` yields a config whose
getters return `id` and `rendezvous_url`, with the placeholder
`_app_version` set to the empty JSON string; the derived core config
carries `id` and `rendezvous_url` verbatim with the fixed empty
`AppVersion` payload, regardless of the placeholder's value. -/
theorem c8_appconfig_new (id rendezvous_url : String) (v : JsonValue) :
    (AppConfig.new id rendezvous_url).idGet = id ∧
    (AppConfig.new id rendezvous_url).rendezvousUrlGet = rendezvous_url ∧
    (AppConfig.new id rendezvous_url)._app_version = .str "" ∧
    Wormhole.get_wh_config (AppConfig.new id rendezvous_url)
      = { id := ⟨id⟩, rendezvous_url := rendezvous_url, app_version := ⟨⟩ } ∧
    Wormhole.get_wh_config { id := id, rendezvous_url := rendezvous_url, _app_version := v }
      = Wormhole.get_wh_config (AppConfig.new id rendezvous_url) :=
  ⟨rfl, rfl, rfl, rfl, rfl⟩

/-- Claim C3: with identical codes, `finish` on both ends yields
bit-identical session keys; with differing codes both finishes still
succeed (no explicit PAKE-step error), the derived keys differ, and the
first encrypted message fails with `AuthenticationError` on the receiving
side. -/
theorem c3_pake_key_agreement (c cp : String) (x y : Nat)
    (phase : String) (body : List Nat) :
    (c = cp →
      ∃ k, pakeFinish ⟨c, x⟩ (PakeMsg.blind cp y) = .ok k ∧
           pakeFinish ⟨cp, y⟩ (PakeMsg.blind c x) = .ok k) ∧
    (c ≠ cp →
      ∃ k kp, pakeFinish ⟨c, x⟩ (PakeMsg.blind cp y) = .ok k ∧
        pakeFinish ⟨cp, y⟩ (PakeMsg.blind c x) = .ok kp ∧
        k ≠ kp ∧
        decryptMsg kp (encryptMsg k phase body) = .error .authenticationError ∧
        decryptMsg k (encryptMsg kp phase body) = .error .authenticationError) := by
  constructor
  · intro heq
    subst heq
    refine ⟨.shared (x * y), ?_, ?_⟩
    · simp [pakeFinish]
    · simp [pakeFinish, Nat.mul_comm]
  · intro hne
    have hne2 : ¬(cp = c) := fun h => hne h.symm
    refine ⟨.residual cp c x y, .residual c cp y x, ?_, ?_, ?_, ?_, ?_⟩
    · simp only [pakeFinish]
      rw [if_neg hne]
    · simp only [pakeFinish]
      rw [if_neg hne2]
    · intro hk
      cases hk
      exact hne rfl
    · simp only [decryptMsg, encryptMsg]
      rw [if_neg]
      intro hk
      cases hk
      exact hne rfl
    · simp only [decryptMsg, encryptMsg]
      rw [if_neg]
      intro hk
      cases hk
      exact hne rfl

/-- Witness for C3, with two equal and two differing concrete codes. -/
theorem c3_witness :
    (∃ k, pakeFinish ⟨"7-a-b", 3⟩ (PakeMsg.blind "7-a-b" 5) = .ok k ∧
          pakeFinish ⟨"7-a-b", 5⟩ (PakeMsg.blind "7-a-b" 3) = .ok k) ∧
    (∃ k kp, pakeFinish ⟨"7-a-b", 3⟩ (PakeMsg.blind "7-a-c" 5) = .ok k ∧
        pakeFinish ⟨"7-a-c", 5⟩ (PakeMsg.blind "7-a-b" 3) = .ok kp ∧
        k ≠ kp ∧
        decryptMsg kp (encryptMsg k "version" []) = .error .authenticationError ∧
        decryptMsg k (encryptMsg kp "version" []) = .error .authenticationError) :=
  ⟨(c3_pake_key_agreement "7-a-b" "7-a-b" 3 5 "version" []).1 rfl,
   (c3_pake_key_agreement "7-a-b" "7-a-c" 3 5 "version" []).2 (by decide)⟩

/-- Claim C5: parsing a well-formed code `nameplate-word1-...-wordN`
recovers the nameplate and word sequence, so reformatting yields the same
code; malformed inputs (empty, non-numeric nameplate segment, or zero
words) fail with `CodeFormatError`; in particular "7-crossover-clockwork"
parses to nameplate 7 with words crossover, clockwork and "abc-word"
fails. -/
theorem c5_parse_roundtrip (n : Nat) (ws : List String) (code : String)
    (hne : ws ≠ []) (hno : ∀ w ∈ ws, '-' ∉ w.data)
    (hbad : charsToNat? ((splitOnDash code.data).headD []) = none ∨
            (splitOnDash code.data).length = 1) :
    parseCode (formatCode n ws) = .ok (n, ws) ∧
    parseCode code = .error .codeFormatError ∧
    parseCode "7-crossover-clockwork" = .ok (7, ["crossover", "clockwork"]) ∧
    parseCode "abc-word" = .error .codeFormatError ∧
    parseCode "" = .error .codeFormatError ∧
    parseCode "7" = .error .codeFormatError := by
  refine ⟨parseCode_formatCode n ws hne hno, ?_, by rfl, by rfl, by rfl, by rfl⟩
  unfold parseCode
  split
  · rfl
  rename_i seg rest heq
  split
  · rfl
  rename_i m hcn
  split
  · rfl
  rename_i hempty
  exfalso
  rw [heq] at hbad
  rcases hbad with hb | hb
  · rw [List.headD_cons] at hb
    rw [hb] at hcn
    cases hcn
  · rw [List.length_cons] at hb
    have hrest : rest = [] := List.length_eq_zero.mp (by omega)
    rw [hrest] at hempty
    exact hempty rfl

/-- Witness for C5, at the concrete round-trip code and the malformed
input of the specification scenario. -/
theorem c5_witness :
    parseCode (formatCode 7 ["crossover", "clockwork"])
      = .ok (7, ["crossover", "clockwork"]) ∧
    parseCode "abc-word" = .error .codeFormatError ∧
    parseCode "7-crossover-clockwork" = .ok (7, ["crossover", "clockwork"]) ∧
    parseCode "abc-word" = .error .codeFormatError ∧
    parseCode "" = .error .codeFormatError ∧
    parseCode "7" = .error .codeFormatError :=
  c5_parse_roundtrip 7 ["crossover", "clockwork"] "abc-word"
    (by decide) (by decide) (by decide)
